import Mathlib

/-!
Verification of the Brainstorm-Flow run-orchestration backend.

The definitions below are a shallow embedding of the TypeScript sources:

* server/src/services/gemini.ts        (parseIdeas, generateIdeas retry loop)
* server/src/pipeline/runPipeline.ts   (createRunId, sanitizeSeed, clamping,
                                        the persisted RunState trace)
* server/src/routes/runRoutes.ts       (normalizeSeed, POST /run handler,
                                        GET /runs/:id/events handler)
* server/src/events/runEvents.ts       (RunEventHub: subscribe, broadcast,
                                        unsubscribe, scheduleCleanup)

JavaScript strings are modelled as Lean strings; `jsTrim` mirrors
String.prototype.trim (over the common whitespace code points).  JSON values
produced by JSON.parse are modelled by the inductive `Json`.  The effectful
pipeline is modelled as a pure function from the outcome of the generation
adapter to the list of snapshots passed to persistRunState, together with the
function result (normal return vs thrown exception, as an Except).
Timestamp strings (startedAt / finishedAt) carry no information relevant to
the verified properties and are elided from the state model.
-/

namespace BrainstormFlow

/-- Whitespace recognised by JavaScript String.prototype.trim (the code
points that actually occur in this code base: space, tab, LF, CR, VT, FF). -/
def isJsWs (c : Char) : Bool :=
  c = ' ' || c = '\t' || c = '\n' || c = '\r' || c = '\x0b' || c = '\x0c'

/-- Trim of a character list: drop leading and trailing whitespace. -/
def trimChars (l : List Char) : List Char :=
  ((l.dropWhile isJsWs).reverse.dropWhile isJsWs).reverse

/-- Model of JavaScript String.prototype.trim. -/
def jsTrim (s : String) : String :=
  String.mk (trimChars s.data)

/-- Result of JSON.parse on a successfully parsed document. -/
inductive Json where
  | null : Json
  | bool (b : Bool) : Json
  | num (n : Int) : Json
  | str (s : String) : Json
  | arr (elems : List Json) : Json
  | obj (fields : List (String × Json)) : Json

/-- Property lookup on a JSON object (JSON.parse yields unique keys). -/
def Json.getProp (j : Json) (key : String) : Option Json :=
  match j with
  | .obj fields => (fields.find? (fun f => f.1 = key)).map (·.2)
  | _ => none

/-- Model of the checks guarding parseIdeas: a falsy value, a non-object, or
an object without an "ideas" own-property all fail the
`!parsed || typeof parsed !== 'object' || !('ideas' in parsed)` test. -/
def Json.hasIdeasField (j : Json) : Bool :=
  match j with
  | .obj fields => fields.any (fun f => f.1 = "ideas")
  | _ => false

/-- Idea record from pipeline/types.ts. -/
structure Idea where
  title : String
  description : String
  rationale : String
  risk : Option String := none
  deriving DecidableEq, Repr

/-- Translation of the per-element cleaning step inside parseIdeas
(gemini.ts lines 65-85): require an object with string title / description /
rationale, trim them, and attach risk only when it is a string that is
non-empty after trimming. -/
def cleanIdea (idx : Nat) (j : Json) : Except String Idea :=
  match j with
  | .obj _ =>
    match j.getProp "title", j.getProp "description", j.getProp "rationale" with
    | some (.str t), some (.str d), some (.str r) =>
      let riskField :=
        match j.getProp "risk" with
        | some (.str rk) => if jsTrim rk = "" then none else some (jsTrim rk)
        | _ => none
      .ok { title := jsTrim t, description := jsTrim d,
            rationale := jsTrim r, risk := riskField }
    | _, _, _ =>
      .error ("Idea at index " ++ toString idx ++ " missing required fields.")
  | _ => .error ("Idea at index " ++ toString idx ++ " is not an object.")

/-- Index-aware traversal used by `ideas.map((idea, idx) => ...)`: the map
callback throws, which aborts the whole map, so the model is a monadic fold. -/
def cleanIdeas (idx : Nat) : List Json → Except String (List Idea)
  | [] => .ok []
  | j :: rest => do
    let i ← cleanIdea idx j
    let is ← cleanIdeas (idx + 1) rest
    .ok (i :: is)

/-- Translation of parseIdeas (gemini.ts lines 48-88).  The argument is the
result of JSON.parse on the raw response text: `none` when the text is not
valid JSON, `some j` otherwise. -/
def parseIdeas (parsed : Option Json) : Except String (List Idea) :=
  match parsed with
  | none => .error "Gemini response was not valid JSON."
  | some j =>
    if !j.hasIdeasField then
      .error "Gemini JSON missing \"ideas\" field."
    else
      match j.getProp "ideas" with
      | some (.arr ideas) =>
        if ideas.isEmpty then
          .error "Gemini JSON \"ideas\" must be a non-empty array."
        else
          cleanIdeas 0 ideas
      | _ => .error "Gemini JSON \"ideas\" must be a non-empty array."

/-! Basic facts about `jsTrim`. -/

theorem dropWhile_head?_not (p : α → Bool) :
    ∀ (l : List α) (c : α), (l.dropWhile p).head? = some c → p c = false := by
  intro l
  induction l with
  | nil => intro c h; simp [List.dropWhile] at h
  | cons a as ih =>
    intro c h
    by_cases ha : p a
    · rw [List.dropWhile_cons_of_pos ha] at h
      exact ih c h
    · rw [List.dropWhile_cons_of_neg ha] at h
      simp at h
      subst h
      simpa using ha

theorem dropWhile_eq_self_of_head?
    (p : α → Bool) (l : List α)
    (h : ∀ c, l.head? = some c → p c = false) : l.dropWhile p = l := by
  cases l with
  | nil => rfl
  | cons a as =>
    have : p a = false := h a rfl
    simp [List.dropWhile, this]

theorem trimChars_head?_not (l : List Char) (c : Char)
    (h : (trimChars l).head? = some c) : isJsWs c = false := by
  unfold trimChars at h
  have hsfx : ((l.dropWhile isJsWs).reverse.dropWhile isJsWs)
      <:+ (l.dropWhile isJsWs).reverse := List.dropWhile_suffix _
  have hpre : ((l.dropWhile isJsWs).reverse.dropWhile isJsWs).reverse
      <+: (l.dropWhile isJsWs) := by
    have := hsfx.reverse
    simpa using this
  rcases hpre with ⟨t, ht⟩
  rcases hx : ((l.dropWhile isJsWs).reverse.dropWhile isJsWs).reverse with _ | ⟨a, as⟩
  · rw [hx] at h; simp at h
  · rw [hx] at h ht
    simp at h
    subst h
    apply dropWhile_head?_not isJsWs l
    rw [← ht]
    rfl

theorem trimChars_getLast?_not (l : List Char) (c : Char)
    (h : (trimChars l).getLast? = some c) : isJsWs c = false := by
  unfold trimChars at h
  rw [List.getLast?_reverse] at h
  exact dropWhile_head?_not isJsWs _ c h

theorem trimChars_idem (l : List Char) : trimChars (trimChars l) = trimChars l := by
  have h1 : (trimChars l).dropWhile isJsWs = trimChars l := by
    apply dropWhile_eq_self_of_head?
    intro c hc
    exact trimChars_head?_not l c hc
  have h2 : (trimChars l).reverse.dropWhile isJsWs = (trimChars l).reverse := by
    apply dropWhile_eq_self_of_head?
    intro c hc
    rw [List.head?_reverse] at hc
    exact trimChars_getLast?_not l c hc
  show ((((trimChars l).dropWhile isJsWs).reverse.dropWhile isJsWs)).reverse = trimChars l
  rw [h1, h2, List.reverse_reverse]

theorem jsTrim_idem (s : String) : jsTrim (jsTrim s) = jsTrim s := by
  unfold jsTrim
  rw [show (String.mk (trimChars s.data)).data = trimChars s.data from rfl]
  rw [trimChars_idem]

/-! Generation adapter with retry (gemini.ts lines 125-169).

One upstream call is made per loop iteration.  The upstream behaviour is an
oracle mapping the attempt index (0-based) to what that call produces:
either the call itself throws (a GenerationError from the service), or it
returns response text that is empty, or it returns non-empty text whose
JSON.parse result is the given `Option Json`. -/

inductive AttemptResult where
  | serviceError (msg : String) : AttemptResult
  | emptyText : AttemptResult
  | payload (parsed : Option Json) : AttemptResult

/-- What the body of one loop iteration of generateIdeas produces: the
upstream call, the empty-text check, then parseIdeas; every raised error is
caught by the surrounding catch and recorded as lastError. -/
def attemptOutcome : AttemptResult → Except String (List Idea)
  | .serviceError msg => .error msg
  | .emptyText => .error "Gemini response missing text content."
  | .payload parsed => parseIdeas parsed

/-- Translation of generateIdeas: two attempts, the second entered whenever
the first failed for any reason; returns the result together with the number
of upstream calls made. -/
def generateIdeas (oracle : Nat → AttemptResult) : Except String (List Idea) × Nat :=
  match attemptOutcome (oracle 0) with
  | .ok ideas => (.ok ideas, 1)
  | .error _ =>
    match attemptOutcome (oracle 1) with
    | .ok ideas => (.ok ideas, 2)
    | .error e => (.error e, 2)

/-! Pipeline data model (pipeline/types.ts). -/

inductive NodeStatus where
  | pending | running | completed | failed
  deriving DecidableEq, Repr

inductive RunStatus where
  | running | completed | failed
  deriving DecidableEq, Repr

/-- Seed input from types.ts; n and k are the optional requested idea count
and top-K. -/
structure SeedInput where
  goal : String
  audience : String
  constraints : String
  n : Option Int := none
  k : Option Int := none
  deriving DecidableEq, Repr

/-- Translation of sanitizeSeed (runPipeline.ts lines 71-84): trim the three
text fields (the `|| ''` fallback is the identity on our total strings) and
copy n and k when they are numbers. -/
def sanitizeSeed (seed : SeedInput) : SeedInput :=
  { goal := jsTrim seed.goal
    audience := jsTrim seed.audience
    constraints := jsTrim seed.constraints
    n := seed.n
    k := seed.k }

structure SeedNodeOutput where
  title : String
  summary : String
  goal : String
  audience : String
  constraints : String
  requestedIdeas : Int
  topK : Int
  deriving DecidableEq, Repr

/-- Diverge node output; usage metrics are elided (no verified property
mentions them). -/
structure DivergeNodeOutput where
  title : String
  summary : String
  ideaCount : Nat
  model : String
  requestedIdeas : Int
  ideas : List Idea
  deriving DecidableEq, Repr

structure BriefSection where
  title : String
  body : String
  deriving DecidableEq, Repr

structure PackageNodeOutput where
  title : String
  summary : String
  selectedCount : Nat
  totalGenerated : Nat
  sections : List BriefSection
  brief : String
  deriving DecidableEq, Repr

/-- Per-node slot of PipelineRunState.nodes (NodeResult in types.ts), typed
per stage as the design notes recommend; timestamps elided. -/
structure NodeResult (I O : Type) where
  status : NodeStatus := .pending
  input : Option I := none
  output : Option O := none
  error : Option String := none

/-- The RunState snapshot passed to persistRunState.  id, createdAt and
usage carry no verified content and are elided. -/
structure PipelineRunState where
  status : RunStatus
  error : Option String := none
  seedNode : NodeResult SeedInput SeedNodeOutput
  divergeNode : NodeResult (Int × SeedInput) DivergeNodeOutput
  packageNode : NodeResult (Int × List Idea) PackageNodeOutput

/-- Relevant part of AppConfig (utils/env.ts). -/
structure AppConfig where
  defaultN : Int := 6
  defaultK : Int := 3
  geminiModel : String := "models/gemini-2.5-flash-lite"

/-- Status-update part of markNodeStatus (runPipeline.ts lines 247-262):
set the status, and record the error only on a failed status with a truthy
(non-empty) message. -/
def NodeResult.markStatus (n : NodeResult I O) (st : NodeStatus)
    (err : Option String := none) : NodeResult I O :=
  { n with
    status := st
    error :=
      match st, err with
      | .failed, some e => if e = "" then n.error else some e
      | _, _ => n.error }

/-- Lines contributed by one selected idea inside buildBrief
(runPipeline.ts lines 97-105). -/
def briefIdeaLines (index : Nat) (idea : Idea) : List String :=
  [toString (index + 1) ++ ". **" ++ idea.title ++ "**",
   "   - Overview: " ++ idea.description,
   "   - Rationale: " ++ idea.rationale]
  ++ (match idea.risk with
      | some r => ["   - Risk: " ++ r]
      | none => [])
  ++ [""]

/-- Translation of buildBrief (runPipeline.ts lines 86-109). -/
def buildBrief (seed : SeedInput) (ideas : List Idea) (k : Int) : String :=
  let selected := ideas.take k.toNat
  let lines :=
    ["# Brainstorm Brief", "",
     "**Goal:** " ++ seed.goal,
     "**Audience:** " ++ seed.audience,
     "**Constraints:** " ++ seed.constraints,
     "", "## Top Concepts", ""]
    ++ (selected.enum.map fun p => briefIdeaLines p.1 p.2).flatten
    ++ ["---", "Generated via Node-Graph Brainstormer"]
  String.intercalate "\n" lines

/-- Translation of ensureValue (runPipeline.ts lines 111-114). -/
def ensureValue (value fallback : String) : String :=
  if jsTrim value = "" then fallback else jsTrim value

/-- Translation of formatConceptSummary (runPipeline.ts lines 116-129); the
separator characters are exactly the bytes present in the source file. -/
def formatConceptSummary (ideas : List Idea) : String :=
  if ideas.isEmpty then
    "No concepts selected yet. Re-run packaging once ideas are available."
  else
    String.intercalate "\n"
      (ideas.enum.map fun p =>
        let base := toString (p.1 + 1) ++ ". " ++ p.2.title ++ " â€” " ++
          p.2.description ++ " Rationale: " ++ p.2.rationale
        match p.2.risk with
        | some r => base ++ " Risk Watch: " ++ r
        | none => base)

/-- Translation of buildPackageSections (runPipeline.ts lines 131-152). -/
def buildPackageSections (seed : SeedInput) (selectedIdeas : List Idea)
    (totalGenerated selectedCount : Nat) : List BriefSection :=
  [{ title := "Objective", body := ensureValue seed.goal "Goal not specified." },
   { title := "Target Audience",
     body := ensureValue seed.audience "Audience not specified." },
   { title := "Guardrails",
     body := ensureValue seed.constraints "Constraints not specified." },
   { title := "Concept Snapshot", body := formatConceptSummary selectedIdeas },
   { title := "Engagement Summary",
     body := "Generated " ++ toString totalGenerated ++
       " structured concepts and elevated the top " ++ toString selectedCount ++
       " for packaging." }]

/-- Hard ceiling MAX_DIVERGE_IDEAS (runPipeline.ts line 57). -/
def MAX_DIVERGE_IDEAS : Int := 6

/-- Parameter clamping performed by runPipeline (lines 191-203). -/
def clampCounts (cfg : AppConfig) (sanitized : SeedInput) : Int × Int :=
  let requestedIdeas := sanitized.n.getD cfg.defaultN
  let requestedTopK := sanitized.k.getD cfg.defaultK
  let ideaCount := min MAX_DIVERGE_IDEAS requestedIdeas
  let effectiveTopK := max 1 (min requestedTopK ideaCount)
  (ideaCount, effectiveTopK)

/-- Result of a runPipeline invocation: the snapshots handed to
persistRunState in order, and the function outcome (ok on normal return,
error when the recorded exception is re-thrown to the caller). -/
structure RunTrace where
  snapshots : List PipelineRunState
  result : Except String PipelineRunState

/-- Translation of runPipeline (runPipeline.ts lines 180-450) as the
sequence of states passed to persistRunState.  `gen` is the outcome of the
generateIdeas call (the adapter boundary, including its internal retry);
node_io, graph.json, brief.md and token_usage.json writes are separate files
and do not contribute state.json snapshots. -/
def runPipeline (cfg : AppConfig) (seed : SeedInput)
    (gen : Except String (List Idea)) : RunTrace :=
  let sanitized0 := sanitizeSeed seed
  let requestedIdeas := sanitized0.n.getD cfg.defaultN
  let requestedTopK := sanitized0.k.getD cfg.defaultK
  let ideaCount := (clampCounts cfg sanitized0).1
  let effectiveTopK := (clampCounts cfg sanitized0).2
  let wasIdeaCountCapped := requestedIdeas ≠ ideaCount
  let wasTopKCapped := requestedTopK ≠ effectiveTopK
  let sanitized : SeedInput :=
    { sanitized0 with n := some ideaCount, k := some effectiveTopK }
  let s0 : PipelineRunState :=
    { status := .running
      seedNode := { input := some sanitized }
      divergeNode := {}
      packageNode := {} }
  let plannedTopK := effectiveTopK
  let ideaSummaryText :=
    if wasIdeaCountCapped then
      toString ideaCount ++ " (capped from " ++ toString requestedIdeas ++ ")"
    else toString ideaCount
  let topKSummaryText :=
    if wasTopKCapped then
      toString plannedTopK ++ " (capped from " ++ toString requestedTopK ++ ")"
    else toString plannedTopK
  let s1 := { s0 with seedNode := s0.seedNode.markStatus .running }
  let seedOutput : SeedNodeOutput :=
    { title := "Seed Summary"
      summary := "Prepared seed brief requesting " ++ ideaSummaryText ++
        " ideas and spotlighting the top " ++ topKSummaryText ++ " for packaging."
      goal := sanitized.goal
      audience := sanitized.audience
      constraints := sanitized.constraints
      requestedIdeas := ideaCount
      topK := plannedTopK }
  let s2 := { s1 with seedNode := { s1.seedNode with output := some seedOutput } }
  let s3 := { s2 with seedNode := s2.seedNode.markStatus .completed }
  let s4 := { s3 with divergeNode := s3.divergeNode.markStatus .running }
  match gen with
  | .ok generatedIdeas =>
    let limitedIdeas := generatedIdeas.take ideaCount.toNat
    let conceptCount := limitedIdeas.length
    let pluralSuffix := if conceptCount = 1 then "" else "s"
    let divergeOutput : DivergeNodeOutput :=
      { title := "Structured Idea Portfolio"
        summary := "Generated " ++ toString conceptCount ++
          " structured concept" ++ pluralSuffix ++ " leveraging " ++
          cfg.geminiModel ++ "."
        ideaCount := conceptCount
        model := cfg.geminiModel
        requestedIdeas := ideaCount
        ideas := limitedIdeas }
    let s5 := { s4 with divergeNode :=
      { s4.divergeNode with
        input := some (ideaCount, sanitized)
        output := some divergeOutput } }
    let s6 := { s5 with divergeNode := s5.divergeNode.markStatus .completed }
    let k := max 1 (min (limitedIdeas.length : Int) plannedTopK)
    let s7 := { s6 with packageNode := s6.packageNode.markStatus .running }
    let brief := buildBrief sanitized limitedIdeas k
    let selectedIdeas := limitedIdeas.take k.toNat
    let selectedCount := selectedIdeas.length
    let packageSections :=
      buildPackageSections sanitized selectedIdeas limitedIdeas.length selectedCount
    let packageSummary :=
      if selectedCount > 0 then
        "Curated the top " ++ toString selectedCount ++ " concept" ++
          (if selectedCount = 1 then "" else "s") ++
          " into a stakeholder-ready brief."
      else
        "Prepared a brief shell; regenerate concepts to populate the highlights."
    let packageOutput : PackageNodeOutput :=
      { title := "Executive Creative Brief"
        summary := packageSummary
        selectedCount := selectedCount
        totalGenerated := limitedIdeas.length
        sections := packageSections
        brief := brief }
    let s8 := { s7 with packageNode :=
      { s7.packageNode with
        input := some (k, limitedIdeas)
        output := some packageOutput } }
    let s9 := { s8 with packageNode := s8.packageNode.markStatus .completed }
    let s10 := { s9 with status := .completed }
    { snapshots := [s0, s1, s2, s3, s4, s5, s6, s7, s8, s9, s10]
      result := .ok s10 }
  | .error message =>
    let s5 := { s4 with divergeNode :=
      { s4.divergeNode with
        input := some (ideaCount, sanitized)
        error := some message } }
    let s6 := { s5 with divergeNode := s5.divergeNode.markStatus .failed (some message) }
    let s7 := { s6 with status := .failed, error := some message }
    { snapshots := [s0, s1, s2, s3, s4, s5, s6, s7]
      result := .error message }

/-! HTTP route layer (routes/runRoutes.ts). -/

/-- Request body for POST /run; absent fields are `none`.  String(x)
coercion is folded into the String type, and the Number/isInteger checks on
n and k are folded into the Option Int type. -/
structure RequestBody where
  goal : Option String := none
  audience : Option String := none
  constraints : Option String := none
  n : Option Int := none
  k : Option Int := none

/-- JavaScript truthiness test used by `!goal` on a possibly absent string
field: absent and the empty string are falsy. -/
def isFalsyStr : Option String → Bool
  | none => true
  | some s => s = ""

/-- Translation of normalizeSeed (runRoutes.ts lines 9-37).  Note the
required-field test is JS falsiness on the raw value: no trimming happens
here. -/
def normalizeSeed (body : Option RequestBody) : Except String SeedInput :=
  match body with
  | none => .error "Request body must be an object."
  | some b =>
    if isFalsyStr b.goal || isFalsyStr b.audience || isFalsyStr b.constraints then
      .error "Missing required seed fields: goal, audience, constraints."
    else
      let base : SeedInput :=
        { goal := b.goal.getD ""
          audience := b.audience.getD ""
          constraints := b.constraints.getD "" }
      match b.n, b.k with
      | some vn, _ =>
        if vn ≤ 0 then .error "n must be a positive integer."
        else
          match b.k with
          | some vk =>
            if vk ≤ 0 then .error "k must be a positive integer."
            else .ok { base with n := some vn, k := some vk }
          | none => .ok { base with n := some vn }
      | none, some vk =>
        if vk ≤ 0 then .error "k must be a positive integer."
        else .ok { base with k := some vk }
      | none, none => .ok base

/-- Outcome of the POST /run handler (runRoutes.ts lines 66-78): an
invalid body is answered 400 before any run exists; otherwise a 202 with the
run id is sent and the pipeline is started, its rejection consumed by the
trailing `.catch` (so the handler itself never surfaces an exception). -/
inductive PostRunResponse where
  | badRequest (msg : String) : PostRunResponse
  | accepted (trace : RunTrace) : PostRunResponse

/-- Translation of the POST /run handler.  The `accepted` payload records
everything the started pipeline persisted; in the badRequest case no run id
was issued and no RunState was ever created or persisted. -/
def postRun (cfg : AppConfig) (body : Option RequestBody)
    (gen : Except String (List Idea)) : PostRunResponse :=
  match normalizeSeed body with
  | .error msg => .badRequest msg
  | .ok seed => .accepted (runPipeline cfg seed gen)

/-! Event broadcast hub (events/runEvents.ts).

Subscription records are identified by their JavaScript object identity,
modelled as a Nat.  The hub state carries the emitters map (as the list of
run ids that own a live EventEmitter), the per-run fan-out sets, and the
set of live keep-alive interval timers (one per subscription, keyed by the
subscription identity). -/

structure HubState where
  emitters : List String := []
  subscribers : List (String × List Nat) := []
  heartbeats : List Nat := []

/-- Keep-alive interval from runEvents.ts line 48. -/
def HEARTBEAT_INTERVAL_MS : Nat := 25000

/-- Grace period before cleanup from runEvents.ts line 86. -/
def CLEANUP_DELAY_MS : Nat := 60000

/-- Map update for the subscribers map (Map.set semantics). -/
def mapSet (m : List (String × List Nat)) (key : String) (v : List Nat) :
    List (String × List Nat) :=
  if m.any (fun e => e.1 = key) then
    m.map (fun e => if e.1 = key then (key, v) else e)
  else
    m ++ [(key, v)]

/-- Translation of RunEventHub.create (lines 14-24): registers an emitter
for the run (the attached listener broadcasts each event and schedules
cleanup on a terminal run-status, modelled separately). -/
def hubCreate (st : HubState) (runId : String) : HubState :=
  { st with emitters := runId :: st.emitters }

/-- Translation of RunEventHub.get (lines 26-28). -/
def hubGet (st : HubState) (runId : String) : Bool :=
  st.emitters.contains runId

/-- Translation of RunEventHub.subscribe (lines 30-55): add the subscription
to the run's fan-out set and start its keep-alive timer. -/
def hubSubscribe (st : HubState) (runId : String) (subId : Nat) : HubState :=
  let active := ((st.subscribers.lookup runId).getD []) ++ [subId]
  { st with
    subscribers := mapSet st.subscribers runId active
    heartbeats := st.heartbeats ++ [subId] }

/-- Translation of RunEventHub.unsubscribe (lines 70-77): delete the given
subscription object from the run's set (Set.delete, i.e. removal by object
identity) and drop the map entry when the set becomes empty. -/
def hubUnsubscribe (st : HubState) (runId : String) (target : Nat) : HubState :=
  match st.subscribers.lookup runId with
  | none => st
  | some listeners =>
    let remaining := listeners.erase target
    { st with subscribers :=
        if remaining.isEmpty then st.subscribers.filter (fun e => !(e.1 = runId))
        else mapSet st.subscribers runId remaining }

/-- A subscription identity distinct from every subscription stored in the
hub: this is what the fresh object literal built by
`this.unsubscribe(runId, { res })` in broadcast (line 65) denotes. -/
def freshSubId (st : HubState) : Nat :=
  ((st.subscribers.map Prod.snd).flatten.foldr max 0) + 1

/-- Body of the broadcast loop (lines 61-67) over the pending listeners:
attempt the write to each subscriber in order; when a write throws, call
unsubscribe with a freshly constructed object.  Returns the final hub state
and the subscribers whose write succeeded (those that received the event). -/
def broadcastLoop (st : HubState) (runId : String) (failsWrite : Nat → Bool) :
    List Nat → HubState × List Nat
  | [] => (st, [])
  | s :: rest =>
    if failsWrite s then
      let st1 := hubUnsubscribe st runId (freshSubId st)
      broadcastLoop st1 runId failsWrite rest
    else
      let (st1, delivered) := broadcastLoop st runId failsWrite rest
      (st1, s :: delivered)

/-- Translation of RunEventHub.broadcast (lines 57-68): a no-op with no or
zero subscribers, otherwise the write loop above.  `failsWrite` says which
subscriber connections throw on res.write. -/
def hubBroadcast (st : HubState) (runId : String) (failsWrite : Nat → Bool) :
    HubState × List Nat :=
  match st.subscribers.lookup runId with
  | none => (st, [])
  | some listeners =>
    if listeners.isEmpty then (st, [])
    else broadcastLoop st runId failsWrite listeners

/-- Effect of the timer scheduled by RunEventHub.scheduleCleanup
(lines 79-87) when it fires, CLEANUP_DELAY_MS after the terminal run-status
event: remove the emitter's listeners and drop it from the emitters map.
Nothing else is touched. -/
def cleanupFire (st : HubState) (runId : String) : HubState :=
  if st.emitters.contains runId then
    { st with emitters := st.emitters.filter (fun r => !(r = runId)) }
  else st

/-- Outcome of GET /runs/:id/events (runRoutes.ts lines 134-142). -/
inductive EventsResponse where
  | notFound : EventsResponse
  | streaming (newState : HubState) : EventsResponse

/-- Translation of the events route: 404 when no emitter is registered for
the run, otherwise subscribe the connection. -/
def getRunEvents (st : HubState) (runId : String) (subId : Nat) : EventsResponse :=
  if hubGet st runId then .streaming (hubSubscribe st runId subId)
  else .notFound

/-! Predicates used by the run-status invariant claims. -/

/-- All three stages of a snapshot are completed. -/
def allNodesCompleted (s : PipelineRunState) : Prop :=
  s.seedNode.status = .completed ∧ s.divergeNode.status = .completed ∧
    s.packageNode.status = .completed

instance (s : PipelineRunState) : Decidable (allNodesCompleted s) := by
  unfold allNodesCompleted; infer_instance

/-- At least one stage of a snapshot is failed. -/
def someNodeFailed (s : PipelineRunState) : Prop :=
  s.seedNode.status = .failed ∨ s.divergeNode.status = .failed ∨
    s.packageNode.status = .failed

instance (s : PipelineRunState) : Decidable (someNodeFailed s) := by
  unfold someNodeFailed; infer_instance

/-- One-directional order on stage statuses: `statusLeB a b` holds when a
stage observed at status a may later be observed at status b under the
transition discipline pending to running to one terminal status. -/
def statusLeB : NodeStatus → NodeStatus → Bool
  | .pending, _ => true
  | .running, .pending => false
  | .running, _ => true
  | .completed, .completed => true
  | .completed, _ => false
  | .failed, .failed => true
  | .failed, _ => false

theorem statusLeB_refl (a : NodeStatus) : statusLeB a a = true := by
  cases a <;> rfl

/-! Facts about parseIdeas feeding claim C10. -/

theorem cleanIdea_shape (idx : Nat) (j : Json) (i : Idea)
    (h : cleanIdea idx j = .ok i) :
    jsTrim i.title = i.title ∧ jsTrim i.description = i.description ∧
    jsTrim i.rationale = i.rationale ∧
    (∀ r, i.risk = some r → jsTrim r = r ∧ r ≠ "") := by
  unfold cleanIdea at h
  split at h
  · split at h
    · simp only [Except.ok.injEq] at h
      subst h
      refine ⟨jsTrim_idem _, jsTrim_idem _, jsTrim_idem _, ?_⟩
      intro r hrisk
      simp only at hrisk
      split at hrisk
      · split at hrisk
        · simp at hrisk
        · simp only [Option.some.injEq] at hrisk
          subst hrisk
          refine ⟨jsTrim_idem _, ?_⟩
          assumption
      · simp at hrisk
    · exact absurd h (by simp)
  · exact absurd h (by simp)

theorem cleanIdeas_shape (idx : Nat) :
    ∀ (js : List Json) (l : List Idea), cleanIdeas idx js = .ok l →
      l.length = js.length ∧
      ∀ i ∈ l, jsTrim i.title = i.title ∧ jsTrim i.description = i.description ∧
        jsTrim i.rationale = i.rationale ∧
        (∀ r, i.risk = some r → jsTrim r = r ∧ r ≠ "") := by
  intro js
  induction js generalizing idx with
  | nil =>
    intro l h
    simp [cleanIdeas] at h
    subst h
    exact ⟨rfl, by simp⟩
  | cons j rest ih =>
    intro l h
    unfold cleanIdeas at h
    rcases h1 : cleanIdea idx j with e | i <;> rw [h1] at h
    · exact absurd h (by simp [Bind.bind, Except.bind])
    rcases h2 : cleanIdeas (idx + 1) rest with e | is <;> rw [h2] at h
    · exact absurd h (by simp [Bind.bind, Except.bind])
    have hl : l = i :: is := by
      simpa [Bind.bind, Except.bind] using h.symm
    subst hl
    obtain ⟨hlen, hall⟩ := ih (idx + 1) is h2
    refine ⟨by simp [hlen], ?_⟩
    intro x hx
    rcases List.mem_cons.mp hx with hx | hx
    · subst hx
      exact cleanIdea_shape idx j x h1
    · exact hall x hx

theorem parseIdeas_ok_shape (parsed : Option Json) (l : List Idea)
    (h : parseIdeas parsed = .ok l) :
    l ≠ [] ∧
    ∀ i ∈ l, jsTrim i.title = i.title ∧ jsTrim i.description = i.description ∧
      jsTrim i.rationale = i.rationale ∧
      (∀ r, i.risk = some r → jsTrim r = r ∧ r ≠ "") := by
  cases parsed with
  | none => exact absurd h (by simp [parseIdeas])
  | some j =>
    simp only [parseIdeas] at h
    split at h
    · exact absurd h (by simp)
    · split at h
      · split at h
        · exact absurd h (by simp)
        · rename_i hnotempty
          obtain ⟨hlen, hall⟩ := cleanIdeas_shape 0 _ l h
          refine ⟨?_, hall⟩
          intro hnil
          subst hnil
          simp at hlen
          rw [List.isEmpty_iff_length_eq_zero] at hnotempty
          exact hnotempty hlen.symm
      · exact absurd h (by simp)

/-! Run identifiers (runPipeline.ts lines 59-61).

createRunId is `date.toISOString().replace(/[:.]/g, '-')`.  A Date within
the range handled by the plain 24-character ISO format is modelled by its
UTC calendar fields; for such dates chronological order coincides with the
lexicographic order of the field tuple.  JavaScript strings compare by UTF-16
code units, so strings are modelled as lists of code points (all characters
involved are ASCII) and string `<` is List.Lex on Nat. -/

structure JsDate where
  year : Nat
  month : Nat
  day : Nat
  hour : Nat
  minute : Nat
  second : Nat
  ms : Nat
  deriving DecidableEq, Repr

/-- Field bounds of a calendar date rendered by the fixed-width
YYYY-MM-DDTHH:mm:ss.sssZ format. -/
def JsDate.valid (d : JsDate) : Prop :=
  d.year ≤ 9999 ∧ 1 ≤ d.month ∧ d.month ≤ 12 ∧ 1 ≤ d.day ∧ d.day ≤ 31 ∧
  d.hour ≤ 23 ∧ d.minute ≤ 59 ∧ d.second ≤ 59 ∧ d.ms ≤ 999

instance (d : JsDate) : Decidable d.valid := by
  unfold JsDate.valid; infer_instance

/-- Chronological order on dates: lexicographic on the UTC fields. -/
def JsDate.earlier (a b : JsDate) : Prop :=
  a.year < b.year ∨ (a.year = b.year ∧ (a.month < b.month ∨ (a.month = b.month ∧
    (a.day < b.day ∨ (a.day = b.day ∧ (a.hour < b.hour ∨ (a.hour = b.hour ∧
      (a.minute < b.minute ∨ (a.minute = b.minute ∧ (a.second < b.second ∨
        (a.second = b.second ∧ a.ms < b.ms)))))))))))

instance (a b : JsDate) : Decidable (a.earlier b) := by
  unfold JsDate.earlier; infer_instance

/-- Zero-padded base-10 digits of n in a field of width w (most significant
first), as digit values. -/
def padDigits : Nat → Nat → List Nat
  | 0, _ => []
  | w + 1, n => n / 10 ^ w :: padDigits w (n % 10 ^ w)

/-- Code points of the zero-padded decimal rendering of n (width w). -/
def digitCodes (w n : Nat) : List Nat :=
  (padDigits w n).map (fun d => 48 + d)

/-- The replace(/[:.]/g, '-') callback on one code point: colon (58) and
dot (46) become hyphen (45). -/
def replaceColonDot (c : Nat) : Nat :=
  if c = 58 || c = 46 then 45 else c

/-- Code points of date.toISOString(): YYYY-MM-DDTHH:mm:ss.sssZ
(45 is the hyphen, 84 is T, 58 the colon, 46 the dot, 90 is Z). -/
def toISOCodes (d : JsDate) : List Nat :=
  digitCodes 4 d.year ++ ([45] ++ (digitCodes 2 d.month ++ ([45] ++
    (digitCodes 2 d.day ++ ([84] ++ (digitCodes 2 d.hour ++ ([58] ++
      (digitCodes 2 d.minute ++ ([58] ++ (digitCodes 2 d.second ++ ([46] ++
        (digitCodes 3 d.ms ++ [90]))))))))))))

/-- Translation of createRunId (runPipeline.ts lines 59-61). -/
def createRunId (d : JsDate) : List Nat :=
  (toISOCodes d).map replaceColonDot

/-! Lexicographic-order toolkit for createRunId. -/

theorem padDigits_length (w : Nat) : ∀ n, (padDigits w n).length = w := by
  induction w with
  | zero => intro n; rfl
  | succ w ih => intro n; simp [padDigits, ih]

theorem digitCodes_length (w n : Nat) : (digitCodes w n).length = w := by
  simp [digitCodes, padDigits_length]

theorem padDigits_lt_ten (w : Nat) :
    ∀ n, n < 10 ^ w → ∀ d ∈ padDigits w n, d < 10 := by
  induction w with
  | zero => intro n _ d hd; simp [padDigits] at hd
  | succ w ih =>
    intro n hn d hd
    simp only [padDigits, List.mem_cons] at hd
    rcases hd with rfl | hd
    · have hpos : 0 < 10 ^ w := Nat.pos_pow_of_pos w (by omega)
      have h10 : 10 ^ (w + 1) = 10 ^ w * 10 := by ring
      rw [Nat.div_lt_iff_lt_mul hpos]
      omega
    · exact ih (n % 10 ^ w)
        (Nat.mod_lt _ (Nat.pos_pow_of_pos w (by omega))) d hd

theorem padDigits_lex (w : Nat) :
    ∀ n m, n < m → m < 10 ^ w →
      List.Lex (fun a b : Nat => a < b) (padDigits w n) (padDigits w m) := by
  induction w with
  | zero =>
    intro n m hnm hm
    simp [Nat.pow_zero] at hm
    omega
  | succ w ih =>
    intro n m hnm hm
    have hdiv : n / 10 ^ w ≤ m / 10 ^ w := Nat.div_le_div_right (le_of_lt hnm)
    rcases lt_or_eq_of_le hdiv with hlt | heq
    · exact List.Lex.rel hlt
    · have h1 := Nat.div_add_mod n (10 ^ w)
      have h2 := Nat.div_add_mod m (10 ^ w)
      rw [heq] at h1
      have hmodlt : n % 10 ^ w < m % 10 ^ w := by omega
      have hbound : m % 10 ^ w < 10 ^ w :=
        Nat.mod_lt _ (Nat.pos_pow_of_pos w (by omega))
      show List.Lex _ (n / 10 ^ w :: padDigits w (n % 10 ^ w))
        (m / 10 ^ w :: padDigits w (m % 10 ^ w))
      rw [← heq]
      exact List.Lex.cons (ih _ _ hmodlt hbound)

theorem lex_map (f : Nat → Nat) (hf : ∀ a b, a < b → f a < f b) :
    ∀ {l₁ l₂ : List Nat}, List.Lex (fun a b : Nat => a < b) l₁ l₂ →
      List.Lex (fun a b : Nat => a < b) (l₁.map f) (l₂.map f) := by
  intro l₁ l₂ h
  induction h with
  | nil => exact List.Lex.nil
  | cons _ ih => exact List.Lex.cons ih
  | rel hab => exact List.Lex.rel (hf _ _ hab)

theorem digitCodes_lex (w n m : Nat) (hnm : n < m) (hm : m < 10 ^ w) :
    List.Lex (fun a b : Nat => a < b) (digitCodes w n) (digitCodes w m) :=
  lex_map _ (fun _ _ h => by omega) (padDigits_lex w n m hnm hm)

theorem lex_append_right (l : List Nat) {t₁ t₂ : List Nat}
    (h : List.Lex (fun a b : Nat => a < b) t₁ t₂) :
    List.Lex (fun a b : Nat => a < b) (l ++ t₁) (l ++ t₂) := by
  induction l with
  | nil => exact h
  | cons a as ih => exact List.Lex.cons ih

theorem lex_append_left {l₁ l₂ : List Nat}
    (h : List.Lex (fun a b : Nat => a < b) l₁ l₂)
    (hlen : l₁.length = l₂.length) (t₁ t₂ : List Nat) :
    List.Lex (fun a b : Nat => a < b) (l₁ ++ t₁) (l₂ ++ t₂) := by
  induction h with
  | nil => simp at hlen
  | cons _ ih =>
    simp only [List.length_cons, Nat.succ.injEq] at hlen
    exact List.Lex.cons (ih hlen)
  | rel hab => exact List.Lex.rel hab

theorem digitCodes_map_replace (w n : Nat) (h : n < 10 ^ w) :
    (digitCodes w n).map replaceColonDot = digitCodes w n := by
  have : ∀ x ∈ digitCodes w n, replaceColonDot x = x := by
    intro x hx
    simp only [digitCodes, List.mem_map] at hx
    obtain ⟨d, hd, rfl⟩ := hx
    have := padDigits_lt_ten w n h d hd
    unfold replaceColonDot
    rw [if_neg]
    simp only [Bool.or_eq_true, decide_eq_true_eq, not_or]
    omega
  calc (digitCodes w n).map replaceColonDot
      = (digitCodes w n).map id := List.map_congr_left this
    _ = digitCodes w n := List.map_id _

/-- Normal form of a run id for a date in the plain ISO range: the colon and
dot separators are replaced by hyphens and the digit chunks are untouched. -/
theorem createRunId_eq (d : JsDate) (h : d.valid) :
    createRunId d =
      digitCodes 4 d.year ++ ([45] ++ (digitCodes 2 d.month ++ ([45] ++
        (digitCodes 2 d.day ++ ([84] ++ (digitCodes 2 d.hour ++ ([45] ++
          (digitCodes 2 d.minute ++ ([45] ++ (digitCodes 2 d.second ++ ([45] ++
            (digitCodes 3 d.ms ++ [90])))))))))))) := by
  obtain ⟨hy, _, hmo, _, hda, hh, hmi, hs, hms⟩ := h
  unfold createRunId toISOCodes
  simp only [List.map_append]
  rw [digitCodes_map_replace 4 d.year (by norm_num; omega),
    digitCodes_map_replace 2 d.month (by norm_num; omega),
    digitCodes_map_replace 2 d.day (by norm_num; omega),
    digitCodes_map_replace 2 d.hour (by norm_num; omega),
    digitCodes_map_replace 2 d.minute (by norm_num; omega),
    digitCodes_map_replace 2 d.second (by norm_num; omega),
    digitCodes_map_replace 3 d.ms (by norm_num; omega)]
  rfl

/-! Concrete evaluation helpers and demonstration inputs. -/

/-- Projection of a snapshot to its run status and three stage statuses. -/
def statusTuple (s : PipelineRunState) :
    RunStatus × NodeStatus × NodeStatus × NodeStatus :=
  (s.status, s.seedNode.status, s.divergeNode.status, s.packageNode.status)

def demoCfg : AppConfig := {}

def demoSeed : SeedInput :=
  { goal := "Launch a loyalty app", audience := "frequent commuters",
    constraints := "must launch in 6 weeks" }

def demoIdea : Idea :=
  { title := "Idea", description := "Desc", rationale := "Why" }

/-- Status tuples of the snapshots persisted on the success path. -/
theorem ok_trace_statusTuples (cfg : AppConfig) (seed : SeedInput) (l : List Idea) :
    (runPipeline cfg seed (.ok l)).snapshots.map statusTuple =
      [(.running, .pending, .pending, .pending),
       (.running, .running, .pending, .pending),
       (.running, .running, .pending, .pending),
       (.running, .completed, .pending, .pending),
       (.running, .completed, .running, .pending),
       (.running, .completed, .running, .pending),
       (.running, .completed, .completed, .pending),
       (.running, .completed, .completed, .running),
       (.running, .completed, .completed, .running),
       (.running, .completed, .completed, .completed),
       (.completed, .completed, .completed, .completed)] := rfl

/-- Status tuples of the snapshots persisted on the failure path. -/
theorem fail_trace_statusTuples (cfg : AppConfig) (seed : SeedInput) (m : String) :
    (runPipeline cfg seed (.error m)).snapshots.map statusTuple =
      [(.running, .pending, .pending, .pending),
       (.running, .running, .pending, .pending),
       (.running, .running, .pending, .pending),
       (.running, .completed, .pending, .pending),
       (.running, .completed, .running, .pending),
       (.running, .completed, .running, .pending),
       (.running, .completed, .failed, .pending),
       (.failed, .completed, .failed, .pending)] := rfl

/-- Claim C1, counterexample: on an ordinary successful run there is a
persisted snapshot (the one written by markNodeStatus for the completed
package stage, before state.status is updated) in which all three stages are
completed while RunState.status is still running, so the claimed
iff-at-every-snapshot fails. -/
theorem run_status_iff_snapshot_cex :
    ∃ s ∈ (runPipeline demoCfg demoSeed (.ok [demoIdea])).snapshots,
      allNodesCompleted s ∧ s.status ≠ RunStatus.completed := by
  decide

/-- Claim C1, amended: at every persisted snapshot the forward implications
hold (status completed implies all stages completed, status failed implies a
failed stage); the full iff holds at the final persisted snapshot of the
run; and after a generation failure the package stage is pending in every
snapshot of that run (it stays pending forever).  The unamended biconditional
is violated only in the transient window between a stage reaching a terminal
status and the following persist of the updated run status. -/
theorem run_status_stage_agreement (cfg : AppConfig) (seed : SeedInput)
    (gen : Except String (List Idea)) :
    (∀ s ∈ (runPipeline cfg seed gen).snapshots,
        (s.status = RunStatus.completed → allNodesCompleted s) ∧
        (s.status = RunStatus.failed → someNodeFailed s)) ∧
    (∀ slast, (runPipeline cfg seed gen).snapshots.getLast? = some slast →
        ((slast.status = RunStatus.completed ↔ allNodesCompleted slast) ∧
         (slast.status = RunStatus.failed ↔ someNodeFailed slast) ∧
         (slast.status = RunStatus.running ↔
            (¬ allNodesCompleted slast ∧ ¬ someNodeFailed slast)))) ∧
    (∀ msg, gen = Except.error msg →
        ∀ s ∈ (runPipeline cfg seed gen).snapshots,
          s.packageNode.status = NodeStatus.pending) := by
  refine ⟨?_, ?_, ?_⟩
  · intro s hs
    have hmem := List.mem_map_of_mem statusTuple hs
    cases gen with
    | ok l =>
      rw [ok_trace_statusTuples] at hmem
      simp only [statusTuple, List.mem_cons, List.not_mem_nil, or_false,
        Prod.mk.injEq] at hmem
      rcases hmem with h|h|h|h|h|h|h|h|h|h|h <;>
        · obtain ⟨h1, h2, h3, h4⟩ := h
          constructor <;> intro hc <;>
            simp_all [allNodesCompleted, someNodeFailed]
    | error m =>
      rw [fail_trace_statusTuples] at hmem
      simp only [statusTuple, List.mem_cons, List.not_mem_nil, or_false,
        Prod.mk.injEq] at hmem
      rcases hmem with h|h|h|h|h|h|h|h <;>
        · obtain ⟨h1, h2, h3, h4⟩ := h
          constructor <;> intro hc <;>
            simp_all [allNodesCompleted, someNodeFailed]
  · intro slast hlast
    cases gen with
    | ok l =>
      have htup := congrArg (Option.map statusTuple) hlast
      rw [← List.getLast?_map statusTuple, ok_trace_statusTuples] at htup
      have h := Option.some.inj htup
      have h1 := congrArg (fun t : RunStatus × NodeStatus × NodeStatus × NodeStatus => t.1) h
      have h2 := congrArg (fun t : RunStatus × NodeStatus × NodeStatus × NodeStatus => t.2.1) h
      have h3 := congrArg (fun t : RunStatus × NodeStatus × NodeStatus × NodeStatus => t.2.2.1) h
      have h4 := congrArg (fun t : RunStatus × NodeStatus × NodeStatus × NodeStatus => t.2.2.2) h
      simp only [statusTuple] at h1 h2 h3 h4
      refine ⟨⟨fun _ => ⟨h2.symm, h3.symm, h4.symm⟩, fun _ => h1.symm⟩, ?_, ?_⟩
      · constructor
        · intro hc
          rw [← h1] at hc
          exact absurd hc (by decide)
        · intro hc
          rcases hc with hh | hh | hh
          · rw [← h2] at hh
            exact absurd hh (by decide)
          · rw [← h3] at hh
            exact absurd hh (by decide)
          · rw [← h4] at hh
            exact absurd hh (by decide)
      · constructor
        · intro hc
          rw [← h1] at hc
          exact absurd hc (by decide)
        · intro hrhs
          exact absurd ⟨h2.symm, h3.symm, h4.symm⟩ hrhs.1
    | error m =>
      have htup := congrArg (Option.map statusTuple) hlast
      rw [← List.getLast?_map statusTuple, fail_trace_statusTuples] at htup
      have h := Option.some.inj htup
      have h1 := congrArg (fun t : RunStatus × NodeStatus × NodeStatus × NodeStatus => t.1) h
      have h2 := congrArg (fun t : RunStatus × NodeStatus × NodeStatus × NodeStatus => t.2.1) h
      have h3 := congrArg (fun t : RunStatus × NodeStatus × NodeStatus × NodeStatus => t.2.2.1) h
      have h4 := congrArg (fun t : RunStatus × NodeStatus × NodeStatus × NodeStatus => t.2.2.2) h
      simp only [statusTuple] at h1 h2 h3 h4
      refine ⟨?_, ⟨fun _ => Or.inr (Or.inl h3.symm), fun _ => h1.symm⟩, ?_⟩
      · constructor
        · intro hc
          rw [← h1] at hc
          exact absurd hc (by decide)
        · intro hrhs
          have hdiv := hrhs.2.1
          rw [← h3] at hdiv
          exact absurd hdiv (by decide)
      · constructor
        · intro hc
          rw [← h1] at hc
          exact absurd hc (by decide)
        · intro hrhs
          exact absurd (Or.inr (Or.inl h3.symm)) hrhs.2
  · intro msg hgen s hs
    subst hgen
    have hmem := List.mem_map_of_mem statusTuple hs
    rw [fail_trace_statusTuples] at hmem
    simp only [statusTuple, List.mem_cons, List.not_mem_nil, or_false,
      Prod.mk.injEq] at hmem
    rcases hmem with h|h|h|h|h|h|h|h <;> exact h.2.2.2

/-- Claim C1, witness: the amended theorem applied to a concrete failed run;
its final persisted snapshot satisfies the failed-iff. -/
theorem run_status_stage_agreement_witness :
    ∃ s, (runPipeline demoCfg demoSeed (Except.error "boom")).snapshots.getLast? = some s ∧
      (s.status = RunStatus.failed ↔ someNodeFailed s) := by
  refine ⟨((runPipeline demoCfg demoSeed (Except.error "boom")).snapshots.getLast?).getD
    { status := .running, seedNode := {}, divergeNode := {}, packageNode := {} },
    rfl, ?_⟩
  exact ((run_status_stage_agreement demoCfg demoSeed (Except.error "boom")).2.1
    _ rfl).2.1

/-- Claim C2: across the persisted snapshots of a run, each stage's status
sequence is monotone in the one-directional order pending, then running, then
exactly one terminal status: pairwise along the trace, a later observation is
always reachable from an earlier one under that order, so no stage revisits
pending or running after a terminal status and no stage takes on both
terminal statuses (statusLeB relates neither completed to failed nor failed
to completed). -/
theorem stage_status_monotonic (cfg : AppConfig) (seed : SeedInput)
    (gen : Except String (List Idea)) :
    List.Pairwise (fun a b => statusLeB a b = true)
      ((runPipeline cfg seed gen).snapshots.map (fun s => s.seedNode.status)) ∧
    List.Pairwise (fun a b => statusLeB a b = true)
      ((runPipeline cfg seed gen).snapshots.map (fun s => s.divergeNode.status)) ∧
    List.Pairwise (fun a b => statusLeB a b = true)
      ((runPipeline cfg seed gen).snapshots.map (fun s => s.packageNode.status)) := by
  cases gen with
  | ok l =>
    refine ⟨?_, ?_, ?_⟩
    · rw [show (runPipeline cfg seed (Except.ok l)).snapshots.map
          (fun s => s.seedNode.status) =
          [.pending, .running, .running, .completed, .completed, .completed,
           .completed, .completed, .completed, .completed, .completed] from rfl]
      decide
    · rw [show (runPipeline cfg seed (Except.ok l)).snapshots.map
          (fun s => s.divergeNode.status) =
          [.pending, .pending, .pending, .pending, .running, .running,
           .completed, .completed, .completed, .completed, .completed] from rfl]
      decide
    · rw [show (runPipeline cfg seed (Except.ok l)).snapshots.map
          (fun s => s.packageNode.status) =
          [.pending, .pending, .pending, .pending, .pending, .pending,
           .pending, .running, .running, .completed, .completed] from rfl]
      decide
  | error m =>
    refine ⟨?_, ?_, ?_⟩
    · rw [show (runPipeline cfg seed (Except.error m)).snapshots.map
          (fun s => s.seedNode.status) =
          [.pending, .running, .running, .completed, .completed, .completed,
           .completed, .completed] from rfl]
      decide
    · rw [show (runPipeline cfg seed (Except.error m)).snapshots.map
          (fun s => s.divergeNode.status) =
          [.pending, .pending, .pending, .pending, .running, .running,
           .failed, .failed] from rfl]
      decide
    · rw [show (runPipeline cfg seed (Except.error m)).snapshots.map
          (fun s => s.packageNode.status) =
          [.pending, .pending, .pending, .pending, .pending, .pending,
           .pending, .pending] from rfl]
      decide

/-- A JSON response in the expected ideas shape. -/
def demoIdeasJson : Json :=
  .obj [("ideas", .arr [.obj [("title", .str "Idea"),
    ("description", .str "Desc"), ("rationale", .str "Why")]])]

/-- An upstream oracle whose first call fails with a service error (a
GenerationError) and whose second call returns a well-formed response. -/
def demoFlakyOracle : Nat → AttemptResult := fun i =>
  if i = 0 then .serviceError "upstream unavailable"
  else .payload (some demoIdeasJson)

/-- Claim C3, counterexample: an upstream service-call failure on the first
attempt (a GenerationError, not an InvalidOutputError) is retried rather
than propagated immediately: generateIdeas makes a second call and succeeds,
contradicting the claim that only parse failures are retried. -/
theorem generateIdeas_retries_service_error_cex :
    demoFlakyOracle 0 = AttemptResult.serviceError "upstream unavailable" ∧
    generateIdeas demoFlakyOracle = (Except.ok [demoIdea], 2) :=
  ⟨rfl, rfl⟩

/-- Claim C3, amended: generateIdeas makes at most two upstream calls; a
successful first attempt returns immediately after one call; and any
first-attempt failure - service error, missing text, invalid JSON, or
schema-invalid ideas - triggers exactly one retry, after which the second
attempt's outcome (success or its own error) is what generateIdeas
returns. -/
theorem generateIdeas_retry_policy (oracle : Nat → AttemptResult) :
    (generateIdeas oracle).2 ≤ 2 ∧
    (∀ l, attemptOutcome (oracle 0) = .ok l → generateIdeas oracle = (.ok l, 1)) ∧
    (∀ e, attemptOutcome (oracle 0) = .error e →
        (generateIdeas oracle).2 = 2 ∧
        (generateIdeas oracle).1 = attemptOutcome (oracle 1)) := by
  rcases h0 : attemptOutcome (oracle 0) with e0 | l0 <;>
    rcases h1 : attemptOutcome (oracle 1) with e1 | l1 <;>
      simp [generateIdeas, h0, h1]

/-- Claim C3, witness: the amended retry policy applied to the concrete
flaky oracle. -/
theorem generateIdeas_retry_policy_witness :
    (generateIdeas demoFlakyOracle).2 = 2 ∧
    (generateIdeas demoFlakyOracle).1 = attemptOutcome (demoFlakyOracle 1) :=
  (generateIdeas_retry_policy demoFlakyOracle).2.2 "upstream unavailable" rfl

/-- A request body whose goal is whitespace only. -/
def demoWsBody : RequestBody :=
  { goal := some "   ", audience := some "Commuters",
    constraints := some "Six weeks" }

/-- The seed normalizeSeed produces for that body: the whitespace goal
passes the falsiness check untouched. -/
def demoWsSeed : SeedInput :=
  { goal := "   ", audience := "Commuters", constraints := "Six weeks" }

/-- Claim C4: evaluation of the code at the failing input.  The goal
"   " is empty after trimming, yet normalizeSeed accepts it (its check is
JS falsiness on the untrimmed value), the POST /run handler answers 202 and
starts the pipeline, a RunState is created and persisted (eleven snapshots),
and the run executes to completion - so a seed that is empty after trimming
is not rejected before a run exists. -/
theorem whitespace_seed_creates_run :
    jsTrim "   " = "" ∧
    normalizeSeed (some demoWsBody) = Except.ok demoWsSeed ∧
    postRun demoCfg (some demoWsBody) (Except.ok [demoIdea]) =
      PostRunResponse.accepted
        (runPipeline demoCfg demoWsSeed (Except.ok [demoIdea])) ∧
    (runPipeline demoCfg demoWsSeed (Except.ok [demoIdea])).snapshots.length = 11 ∧
    ((runPipeline demoCfg demoWsSeed (Except.ok [demoIdea])).snapshots.map
        statusTuple).getLast? =
      some (RunStatus.completed, NodeStatus.completed, NodeStatus.completed,
        NodeStatus.completed) :=
  ⟨rfl, rfl, rfl, rfl, by rw [ok_trace_statusTuples]; rfl⟩

/-- Claim C5, counterexample: runPipeline does let the stage failure escape
to its caller - after persisting the terminal failed RunState it re-throws
the error (runPipeline.ts line 379), so the claim that runPipeline itself
never lets the exception escape is false. -/
theorem runPipeline_rethrows_cex :
    (runPipeline demoCfg demoSeed
        (Except.error "Gemini generation failed.")).result =
      Except.error "Gemini generation failed." := rfl

/-- Claim C5, amended: a generation-stage failure is caught by runPipeline,
recorded as the stage's error and as a terminal failed RunState in the final
persisted snapshot, and then re-thrown by runPipeline; the POST /run
handler, which has already answered 202, attaches a catch handler to the
pipeline promise, so the rejection never surfaces to the external caller,
who reads the well-formed failed RunState instead. -/
theorem stage_failure_contained (cfg : AppConfig) (seed : SeedInput) (msg : String) :
    (runPipeline cfg seed (Except.error msg)).result = Except.error msg ∧
    (∀ s, (runPipeline cfg seed (Except.error msg)).snapshots.getLast? = some s →
        s.status = RunStatus.failed ∧ s.error = some msg ∧
        s.divergeNode.status = NodeStatus.failed ∧
        s.divergeNode.error = some msg) ∧
    (∀ body seed2, normalizeSeed body = Except.ok seed2 →
        postRun cfg body (Except.error msg) =
          PostRunResponse.accepted (runPipeline cfg seed2 (Except.error msg))) := by
  refine ⟨rfl, ?_, ?_⟩
  · intro s hs
    have h := Option.some.inj hs
    rw [← h]
    refine ⟨rfl, rfl, rfl, ?_⟩
    show (if msg = "" then some msg else some msg) = some msg
    split <;> rfl
  · intro body seed2 h
    unfold postRun
    rw [h]

/-- A well-formed request body matching demoSeed. -/
def demoBody : RequestBody :=
  { goal := some "Launch a loyalty app", audience := some "frequent commuters",
    constraints := some "must launch in 6 weeks" }

/-- Claim C5, witness: the amended containment applied at a concrete failed
run and a concrete valid request body. -/
theorem stage_failure_contained_witness :
    postRun demoCfg (some demoBody) (Except.error "boom") =
      PostRunResponse.accepted (runPipeline demoCfg demoSeed (Except.error "boom")) :=
  (stage_failure_contained demoCfg demoSeed "boom").2.2 (some demoBody) demoSeed rfl

/-- The clamped idea count of a run (runPipeline.ts line 194). -/
def ideaCountOf (cfg : AppConfig) (seed : SeedInput) : Int :=
  (clampCounts cfg (sanitizeSeed seed)).1

/-- The clamped top-K of a run (runPipeline.ts line 195). -/
def topKOf (cfg : AppConfig) (seed : SeedInput) : Int :=
  (clampCounts cfg (sanitizeSeed seed)).2

/-- Claim C6: with route-validated positive requested counts, the idea count
is clamped to [1, MAX_DIVERGE_IDEAS = 6] and the top-K to
[1, min(requested top-K, clamped idea count)] (in fact it equals
min(requested top-K, clamped idea count)); the adapter's ideas are truncated
to the clamped idea count; the package stage's input takes the first
k = max 1 (min #ideas topK) ideas in generation order; and when at least one
idea was generated the brief selects exactly
clamp(requestedTopK, 1, #generated) of them.  In particular a request for
100 ideas is cut to 6 (and exactly 6 are persisted when the adapter returns
at least 6), and top-K 10 with 6 generated ideas selects exactly 6. -/
theorem requested_counts_clamped (cfg : AppConfig) (seed : SeedInput)
    (gen : List Idea)
    (hn : 1 ≤ (sanitizeSeed seed).n.getD cfg.defaultN)
    (hk : 1 ≤ (sanitizeSeed seed).k.getD cfg.defaultK) :
    (1 ≤ ideaCountOf cfg seed ∧ ideaCountOf cfg seed ≤ MAX_DIVERGE_IDEAS) ∧
    (topKOf cfg seed =
        min ((sanitizeSeed seed).k.getD cfg.defaultK) (ideaCountOf cfg seed) ∧
      1 ≤ topKOf cfg seed) ∧
    (∀ s, (runPipeline cfg seed (Except.ok gen)).result = Except.ok s →
      (∀ d, s.divergeNode.output = some d →
        d.ideas = gen.take (ideaCountOf cfg seed).toNat) ∧
      s.packageNode.input = some
        (max 1 (min ((gen.take (ideaCountOf cfg seed).toNat).length : Int)
          (topKOf cfg seed)), gen.take (ideaCountOf cfg seed).toNat) ∧
      (∀ p, s.packageNode.output = some p →
        p.totalGenerated = (gen.take (ideaCountOf cfg seed).toNat).length ∧
        (1 ≤ (gen.take (ideaCountOf cfg seed).toNat).length →
          p.selectedCount =
            (max 1 (min ((gen.take (ideaCountOf cfg seed).toNat).length : Int)
              ((sanitizeSeed seed).k.getD cfg.defaultK))).toNat))) ∧
    ((sanitizeSeed seed).n.getD cfg.defaultN = 100 →
      ideaCountOf cfg seed = 6 ∧
      (6 ≤ gen.length → (gen.take (ideaCountOf cfg seed).toNat).length = 6)) ∧
    ((sanitizeSeed seed).k.getD cfg.defaultK = 10 →
      (gen.take (ideaCountOf cfg seed).toNat).length = 6 →
      ∀ s, (runPipeline cfg seed (Except.ok gen)).result = Except.ok s →
        ∀ p, s.packageNode.output = some p → p.selectedCount = 6) := by
  have hic : ideaCountOf cfg seed =
      min 6 ((sanitizeSeed seed).n.getD cfg.defaultN) := rfl
  have htk : topKOf cfg seed =
      max 1 (min ((sanitizeSeed seed).k.getD cfg.defaultK)
        (min 6 ((sanitizeSeed seed).n.getD cfg.defaultN))) := rfl
  have hmax : MAX_DIVERGE_IDEAS = 6 := rfl
  have hlim : (gen.take (ideaCountOf cfg seed).toNat).length =
      min (ideaCountOf cfg seed).toNat gen.length := List.length_take _ _
  have hsel : ∀ s, (runPipeline cfg seed (Except.ok gen)).result = Except.ok s →
      (∀ d, s.divergeNode.output = some d →
        d.ideas = gen.take (ideaCountOf cfg seed).toNat) ∧
      s.packageNode.input = some
        (max 1 (min ((gen.take (ideaCountOf cfg seed).toNat).length : Int)
          (topKOf cfg seed)), gen.take (ideaCountOf cfg seed).toNat) ∧
      (∀ p, s.packageNode.output = some p →
        p.totalGenerated = (gen.take (ideaCountOf cfg seed).toNat).length ∧
        p.selectedCount =
          ((gen.take (ideaCountOf cfg seed).toNat).take
            (max 1 (min ((gen.take (ideaCountOf cfg seed).toNat).length : Int)
              (topKOf cfg seed))).toNat).length) := by
    intro s hres
    have h := Except.ok.inj hres
    rw [← h]
    refine ⟨?_, rfl, ?_⟩
    · intro d hd
      have hd2 := Option.some.inj hd
      rw [← hd2]
      rfl
    · intro p hp
      have hp2 := Option.some.inj hp
      rw [← hp2]
      exact ⟨rfl, rfl⟩
  refine ⟨by omega, by omega, ?_, by omega, ?_⟩
  · intro s hres
    obtain ⟨hdiv, hinput, hpack⟩ := hsel s hres
    refine ⟨hdiv, hinput, ?_⟩
    intro p hp
    obtain ⟨htot, hcount⟩ := hpack p hp
    refine ⟨htot, ?_⟩
    intro hpos
    rw [hcount, List.length_take]
    omega
  · intro h10 hlen6 s hres p hp
    obtain ⟨_, _, hpack⟩ := hsel s hres
    obtain ⟨_, hcount⟩ := hpack p hp
    rw [hcount, List.length_take]
    omega

/-- A batch of six distinct placeholder ideas. -/
def demoSixIdeas : List Idea :=
  List.replicate 6 demoIdea

/-- Seed requesting 100 ideas and a top-K of 10. -/
def demoGreedySeed : SeedInput :=
  { goal := "Launch a loyalty app", audience := "frequent commuters",
    constraints := "must launch in 6 weeks", n := some 100, k := some 10 }

/-- Claim C6, witness: the clamping theorem applied to the concrete request
for 100 ideas and top-K 10 against an adapter returning six ideas. -/
theorem requested_counts_clamped_witness :
    ideaCountOf demoCfg demoGreedySeed = 6 ∧
    topKOf demoCfg demoGreedySeed = 6 := by
  have h := requested_counts_clamped demoCfg demoGreedySeed demoSixIdeas
    (by decide) (by decide)
  refine ⟨(h.2.2.2.1 (by decide)).1, ?_⟩
  rw [h.2.1.1]
  decide

/-- A hub with one run and two live subscriptions (identities 1 and 2). -/
def demoHub : HubState :=
  { emitters := ["run1"], subscribers := [("run1", [1, 2])], heartbeats := [1, 2] }

/-- Writes to subscription 1 throw; writes to subscription 2 succeed. -/
def demoFailsFirst : Nat → Bool := fun s => s == 1

/-- Claim C7: evaluation of the code at the failing input.  When the write
to subscription 1 throws during broadcast, the remaining subscriber still
receives the event, but the failing subscriber is NOT removed from the
fan-out set: broadcast calls unsubscribe with a freshly constructed object
literal, which Set.delete compares by object identity and therefore removes
nothing, so the next broadcast attempts (and fails) the same write again. -/
theorem broadcast_failed_write_not_removed :
    (hubBroadcast demoHub "run1" demoFailsFirst).1.subscribers =
      [("run1", [1, 2])] ∧
    (hubBroadcast demoHub "run1" demoFailsFirst).2 = [2] ∧
    (hubBroadcast (hubBroadcast demoHub "run1" demoFailsFirst).1 "run1"
        demoFailsFirst).2 = [2] := by
  refine ⟨rfl, rfl, rfl⟩

theorem contains_filter_ne (l : List String) (a : String) :
    (l.filter (fun r => !(r = a))).contains a = false := by
  have hnm : a ∉ l.filter (fun r => !(r = a)) := by
    intro hmem
    have := List.of_mem_filter hmem
    simp at this
  rw [List.contains_eq_any_beq]
  rw [List.any_eq_false]
  intro x hx
  simp only [beq_iff_eq]
  intro hax
  exact hnm (hax ▸ hx)

/-- Claim C8, counterexample: when the cleanup timer fires 60 seconds after
the terminal run-status event, only the emitter is released; the remaining
subscriber connection and its keep-alive interval survive the cleanup, so
the claim that every remaining subscriber connection is closed and its
timers cancelled is false. -/
theorem cleanup_leaves_connections_cex :
    (cleanupFire demoHub "run1").emitters = [] ∧
    (cleanupFire demoHub "run1").subscribers = [("run1", [1, 2])] ∧
    (cleanupFire demoHub "run1").heartbeats = [1, 2] :=
  ⟨rfl, rfl, rfl⟩

/-- Claim C8, amended: the cleanup scheduled on a terminal run-status fires
after the fixed 60-second grace window and removes exactly the run's
emitter: afterwards subscribing to that run yields NotFound rather than a
stream, but the run's remaining subscriber connections and their keep-alive
timers are left untouched (they are released only when each client
disconnects). -/
theorem cleanup_scope (st : HubState) (runId : String) (subId : Nat) :
    CLEANUP_DELAY_MS = 60000 ∧
    (cleanupFire st runId).subscribers = st.subscribers ∧
    (cleanupFire st runId).heartbeats = st.heartbeats ∧
    hubGet (cleanupFire st runId) runId = false ∧
    getRunEvents (cleanupFire st runId) runId subId = EventsResponse.notFound := by
  have hget : hubGet (cleanupFire st runId) runId = false := by
    unfold cleanupFire
    split
    · exact contains_filter_ne st.emitters runId
    · next hfalse => exact Bool.eq_false_iff.mpr hfalse
  refine ⟨rfl, ?_, ?_, hget, ?_⟩
  · unfold cleanupFire
    split <;> rfl
  · unfold cleanupFire
    split <;> rfl
  · unfold getRunEvents
    rw [hget]
    simp

/-- Claim C9: createRunId is strictly monotone: for valid dates (within the
range rendered by the fixed-width 24-character ISO format), an earlier date
yields a lexicographically smaller run id, so sorting run ids
lexicographically sorts runs by creation time. -/
theorem createRunId_monotone (d1 d2 : JsDate) (h1 : d1.valid) (h2 : d2.valid)
    (h : d1.earlier d2) :
    List.Lex (fun a b : Nat => a < b) (createRunId d1) (createRunId d2) := by
  have hp2 : (10 : Nat) ^ 2 = 100 := by norm_num
  have hp3 : (10 : Nat) ^ 3 = 1000 := by norm_num
  have hp4 : (10 : Nat) ^ 4 = 10000 := by norm_num
  rw [createRunId_eq d1 h1, createRunId_eq d2 h2]
  obtain ⟨hy2, _, hmo2, _, hda2, hh2, hmi2, hs2, hms2⟩ := h2
  rcases h with hlt | ⟨he, h⟩
  · exact lex_append_left (digitCodes_lex 4 _ _ hlt (by omega))
      (by simp [digitCodes_length]) _ _
  rw [he]
  apply lex_append_right
  apply lex_append_right
  rcases h with hlt | ⟨he, h⟩
  · exact lex_append_left (digitCodes_lex 2 _ _ hlt (by omega))
      (by simp [digitCodes_length]) _ _
  rw [he]
  apply lex_append_right
  apply lex_append_right
  rcases h with hlt | ⟨he, h⟩
  · exact lex_append_left (digitCodes_lex 2 _ _ hlt (by omega))
      (by simp [digitCodes_length]) _ _
  rw [he]
  apply lex_append_right
  apply lex_append_right
  rcases h with hlt | ⟨he, h⟩
  · exact lex_append_left (digitCodes_lex 2 _ _ hlt (by omega))
      (by simp [digitCodes_length]) _ _
  rw [he]
  apply lex_append_right
  apply lex_append_right
  rcases h with hlt | ⟨he, h⟩
  · exact lex_append_left (digitCodes_lex 2 _ _ hlt (by omega))
      (by simp [digitCodes_length]) _ _
  rw [he]
  apply lex_append_right
  apply lex_append_right
  rcases h with hlt | ⟨he, hms⟩
  · exact lex_append_left (digitCodes_lex 2 _ _ hlt (by omega))
      (by simp [digitCodes_length]) _ _
  rw [he]
  apply lex_append_right
  apply lex_append_right
  exact lex_append_left (digitCodes_lex 3 _ _ hms (by omega))
    (by simp [digitCodes_length]) _ _

def demoDateA : JsDate := ⟨2026, 10, 12, 9, 30, 0, 123⟩

def demoDateB : JsDate := ⟨2026, 10, 12, 9, 30, 1, 0⟩

/-- Claim C9, witness: two concrete dates one second apart. -/
theorem createRunId_monotone_witness :
    demoDateA.valid ∧ demoDateB.valid ∧ demoDateA.earlier demoDateB ∧
    List.Lex (fun a b : Nat => a < b) (createRunId demoDateA)
      (createRunId demoDateB) :=
  ⟨by decide, by decide, by decide,
    createRunId_monotone demoDateA demoDateB (by decide) (by decide) (by decide)⟩

theorem attemptOutcome_ok_parse (a : AttemptResult) (l : List Idea)
    (h : attemptOutcome a = .ok l) :
    ∃ parsed, parseIdeas parsed = Except.ok l := by
  cases a with
  | serviceError m => exact absurd h (by simp [attemptOutcome])
  | emptyText => exact absurd h (by simp [attemptOutcome])
  | payload p => exact ⟨p, h⟩

theorem generateIdeas_ok_parse (oracle : Nat → AttemptResult) (l : List Idea)
    (calls : Nat) (h : generateIdeas oracle = (Except.ok l, calls)) :
    ∃ parsed, parseIdeas parsed = Except.ok l := by
  unfold generateIdeas at h
  rcases h0 : attemptOutcome (oracle 0) with e0 | l0 <;> rw [h0] at h
  · rcases h1 : attemptOutcome (oracle 1) with e1 | l1 <;> rw [h1] at h
    · exact absurd h (by simp)
    · have hl : l1 = l := by
        have := congrArg Prod.fst h
        simpa using this
      subst hl
      exact attemptOutcome_ok_parse _ _ h1
  · have hl : l0 = l := by
      have := congrArg Prod.fst h
      simpa using this
    subst hl
    exact attemptOutcome_ok_parse _ _ h0

/-- Claim C10: whenever the generation adapter succeeds, the parsed idea
list is non-empty, every idea's title, description and rationale are trimmed
strings, the optional risk is present only as a non-empty trimmed string,
and consequently (with a route-validated positive idea count) a completed
run's package output selects at least one idea. -/
theorem generate_stage_ideas_wellformed (oracle : Nat → AttemptResult)
    (cfg : AppConfig) (seed : SeedInput) (l : List Idea) (calls : Nat)
    (hgen : generateIdeas oracle = (Except.ok l, calls))
    (hn : 1 ≤ (sanitizeSeed seed).n.getD cfg.defaultN) :
    l ≠ [] ∧
    (∀ i ∈ l, jsTrim i.title = i.title ∧ jsTrim i.description = i.description ∧
        jsTrim i.rationale = i.rationale ∧
        (∀ r, i.risk = some r → jsTrim r = r ∧ r ≠ "")) ∧
    (∀ s, (runPipeline cfg seed (Except.ok l)).result = Except.ok s →
        ∀ p, s.packageNode.output = some p → 1 ≤ p.selectedCount) := by
  obtain ⟨parsed, hp⟩ := generateIdeas_ok_parse oracle l calls hgen
  obtain ⟨hne, hall⟩ := parseIdeas_ok_shape parsed l hp
  refine ⟨hne, hall, ?_⟩
  intro s hres p hpp
  have h := Except.ok.inj hres
  rw [← h] at hpp
  have hp2 := Option.some.inj hpp
  rw [← hp2]
  show 1 ≤ ((l.take (ideaCountOf cfg seed).toNat).take
    (max 1 (min ((l.take (ideaCountOf cfg seed).toNat).length : Int)
      (topKOf cfg seed))).toNat).length
  have hic : ideaCountOf cfg seed =
      min 6 ((sanitizeSeed seed).n.getD cfg.defaultN) := rfl
  have hlpos : 1 ≤ l.length := List.length_pos.mpr hne
  rw [List.length_take, List.length_take]
  omega

/-- An upstream oracle that always answers with the same valid response. -/
def demoGoodOracle : Nat → AttemptResult := fun _ => .payload (some demoIdeasJson)

/-- Claim C10, witness: the well-formedness theorem applied to a concrete
successful generation. -/
theorem generate_stage_ideas_wellformed_witness :
    [demoIdea] ≠ [] ∧ jsTrim demoIdea.title = demoIdea.title :=
  ⟨(generate_stage_ideas_wellformed demoGoodOracle demoCfg demoSeed [demoIdea] 1
      rfl (by decide)).1,
   ((generate_stage_ideas_wellformed demoGoodOracle demoCfg demoSeed [demoIdea] 1
      rfl (by decide)).2.1 demoIdea (by decide)).1⟩

end BrainstormFlow
